import Mathlib

/-!
Shallow embedding of the NHLScores repository (src/NHLscores.py and
src/convert_logos.py) and proofs about its specification.

The local logo cache directory is modelled as a list of file paths (`FS`);
external effects (the converter libraries, HTTP downloads, file writes, and
the local-time formatter from Python's `datetime`) are modelled by an
explicit environment `Env`.  Every observable side effect performed by
`ensure_logo_cached` is recorded in an event trace, so that properties such
as "no download is performed" are stated directly about the trace.
-/

/-- The logo cache directory (`LOGO_DIR` in the source, with the script
directory abbreviated away). -/
def LOGO_DIR : String := "logos"

/-- The cache directory contents: the set of existing file paths. -/
abbrev FS := List String

/-- Python truthiness of an optional string: `None` and `""` are falsy. -/
def truthyOpt : Option String → Bool
  | none => false
  | some s => !s.isEmpty

/-- Python `a or b` on optional strings: `b` when `a` is falsy. -/
def pyOr (a b : Option String) : Option String :=
  if truthyOpt a then a else b

/-- Python f-string rendering of an optional string (`None` renders as `"None"`). -/
def pyStr : Option String → String
  | none => "None"
  | some s => s

/-- Python f-string rendering of an optional integer score. -/
def pyScore : Option Int → String
  | none => "None"
  | some n => toString n

/-- Drop characters up to and including the first `://` occurrence, when
one is present. -/
def dropThroughSchemeSep : List Char → Option (List Char)
  | [] => none
  | ':' :: '/' :: '/' :: rest => some rest
  | _ :: rest => dropThroughSchemeSep rest

/-- The path component of `urllib.parse.urlparse`: the fragment (after `#`)
and query (after `?`) are dropped; when a scheme separator `://` is present,
the network location up to the next `/` is dropped as well. -/
def urlparse_path (url : String) : String :=
  let cs := (url.toList.takeWhile (fun c => c ≠ '#')).takeWhile (fun c => c ≠ '?')
  match dropThroughSchemeSep cs with
  | some rest => String.mk (rest.dropWhile (fun c => c ≠ '/'))
  | none => String.mk cs

/-- The extension part of `os.path.splitext` applied to the basename `name`:
everything from the last dot on, provided some earlier character of the
basename is not a dot (so names made only of leading dots have no extension). -/
def splitext_ext (name : String) : String :=
  let cs := name.toList
  let rev := cs.reverse
  let extRev := rev.takeWhile (fun c => c ≠ '.')
  if extRev.length = rev.length then ""
  else
    let beforeDot := cs.take (cs.length - extRev.length - 1)
    if beforeDot.any (fun c => c ≠ '.') then String.mk ('.' :: extRev.reverse) else ""

/-- `os.path.splitext(path)[1]`, splitting the basename off at `/`. -/
def path_ext (p : String) : String :=
  splitext_ext (String.mk ((p.toList.reverse.takeWhile (fun c => c ≠ '/')).reverse))

/-- Python `str.lower()` restricted to the ASCII range (`Char.toLower`),
written to reduce by evaluation. -/
def strToLower (s : String) : String := String.mk (s.toList.map Char.toLower)

/-- Python `str.endswith(suffix)`, over the character lists. -/
def strEndsWith (s suffix : String) : Bool :=
  suffix.toList.isSuffixOf s.toList

/-- Python `ext.lower() in (".png", ".jpg", ".jpeg")`. -/
def isRasterExt (e : String) : Bool :=
  e == ".png" || e == ".jpg" || e == ".jpeg"

/-- Observable side effects of logo resolution: an HTTP GET of a URL, a
conversion attempt by a named tool on a source (file path or URL), and a
successful file write. -/
inductive Event where
  | download (url : String)
  | convert (tool : String) (src : String)
  | write (path : String)
deriving DecidableEq, Repr

/-- Does an event record an HTTP download attempt? -/
def isDownloadEvent : Event → Bool
  | .download _ => true
  | _ => false

/-- The external world as seen by the scripts: which converter libraries
are importable, whether each conversion attempt succeeds, the HTTP
response for each URL (`none` models a raised/network error), whether a file
write succeeds, and the `datetime` pipeline
`fromisoformat(ts.replace('Z','+00:00')).astimezone().strftime('%I:%M %p')`
(`none` models any exception in it). -/
structure Env where
  cairosvgAvailable : Bool
  svglibAvailable : Bool
  cairoFileOk : String → Bool
  svglibFileOk : String → Bool
  cairoBytesOk : String → Bool
  download : String → Option String
  writeOk : String → Bool
  formatLocalTime : String → Option String

/-- A team object from the schedule JSON: `abbrev`, `score`, and the two
logo URL fields consumed by the scripts. -/
structure GameTeam where
  abbrev_ : Option String
  score : Option Int
  darkLogo : Option String
  logo : Option String
deriving DecidableEq, Repr

/-- Lines 129-142 of `ensure_logo_cached`: persist the downloaded bytes to
`LOGO_DIR/abbrev+ext`; the path is usable only for raster extensions. A
failing write is caught and yields no path. -/
def saveOriginal (env : Env) (fs : FS) (abbrev_ ext : String) :
    Option String × FS × List Event :=
  let src_path := LOGO_DIR ++ "/" ++ abbrev_ ++ ext
  if env.writeOk src_path then
    let fs1 := src_path :: fs
    if isRasterExt (strToLower ext) then (some src_path, fs1, [Event.write src_path])
    else (none, fs1, [Event.write src_path])
  else (none, fs, [])

/-- `ensure_logo_cached(team_obj)` from src/NHLscores.py (lines 42-142),
returning the resolved raster path (if any), the updated cache directory,
and the trace of side effects performed. -/
def ensure_logo_cached (env : Env) (fs : FS) (team_obj : GameTeam) :
    Option String × FS × List Event :=
  let abbrevOpt := team_obj.abbrev_
  let logoUrlOpt := pyOr team_obj.darkLogo team_obj.logo
  if !truthyOpt abbrevOpt || !truthyOpt logoUrlOpt then (none, fs, [])
  else
    let abbrev_ := abbrevOpt.getD ""
    let logo_url := logoUrlOpt.getD ""
    let ext0 := path_ext (urlparse_path logo_url)
    let ext := if ext0.isEmpty then ".svg" else ext0
    let png_path := LOGO_DIR ++ "/" ++ abbrev_ ++ ".png"
    if png_path ∈ fs then (some png_path, fs, [])
    else
      let svg_path := LOGO_DIR ++ "/" ++ abbrev_ ++ ".svg"
      if svg_path ∈ fs then
        if env.cairosvgAvailable && env.cairoFileOk svg_path then
          (some png_path, png_path :: fs,
            [Event.convert "cairosvg" svg_path, Event.write png_path])
        else
          let ev1 := if env.cairosvgAvailable then [Event.convert "cairosvg" svg_path] else []
          if env.svglibAvailable && env.svglibFileOk svg_path then
            (some png_path, png_path :: fs,
              ev1 ++ [Event.convert "svglib" svg_path, Event.write png_path])
          else
            let ev2 := ev1 ++ (if env.svglibAvailable then [Event.convert "svglib" svg_path] else [])
            (none, fs, ev2)
      else
        match env.download logo_url with
        | none => (none, fs, [Event.download logo_url])
        | some content =>
          let evD := [Event.download logo_url]
          if strToLower ext = ".svg" then
            if env.cairosvgAvailable && env.cairoBytesOk content then
              (some png_path, png_path :: fs,
                evD ++ [Event.convert "cairosvg" logo_url, Event.write png_path])
            else
              let ev1 := evD ++ (if env.cairosvgAvailable then [Event.convert "cairosvg" logo_url] else [])
              if env.svglibAvailable then
                if env.writeOk svg_path then
                  let fs1 := svg_path :: fs
                  let ev2 := ev1 ++ [Event.write svg_path, Event.convert "svglib" svg_path]
                  if env.svglibFileOk svg_path then
                    (some png_path, png_path :: fs1, ev2 ++ [Event.write png_path])
                  else
                    let r := saveOriginal env fs1 abbrev_ ext
                    (r.1, r.2.1, ev2 ++ r.2.2)
                else
                  let r := saveOriginal env fs abbrev_ ext
                  (r.1, r.2.1, ev1 ++ r.2.2)
              else
                let r := saveOriginal env fs abbrev_ ext
                (r.1, r.2.1, ev1 ++ r.2.2)
          else
            let r := saveOriginal env fs abbrev_ ext
            (r.1, r.2.1, evD ++ r.2.2)

/-- A game object from the schedule JSON: `awayTeam`, `homeTeam`,
`startTimeUTC` and `gameState` (the latter is read with default `''` and
not used further). -/
structure Game where
  awayTeam : GameTeam
  homeTeam : GameTeam
  startTimeUTC : Option String
  gameState : Option String
deriving DecidableEq, Repr

/-- A day entry of the schedule response: its `date` and (optionally
present) `games` list. -/
structure Day where
  date : Option String
  games : Option (List Game)
deriving DecidableEq, Repr

/-- The schedule response: the (optionally present) `gameWeek` list. -/
structure ScheduleResponse where
  gameWeek : Option (List Day)
deriving DecidableEq, Repr

/-- One structured game record appended to `games_data` by `fetch_games`. -/
structure GameRecord where
  away_abbrev : Option String
  home_abbrev : Option String
  away_score : Option Int
  home_score : Option Int
  away_logo : Option String
  home_logo : Option String
  is_scheduled : Bool
  start_time : Option String
deriving DecidableEq, Repr

/-- The body of the inner loop of `fetch_games` (src/NHLscores.py lines
161-214): resolve both logos, then classify the game by score presence and
build the summary line and the structured record. -/
def processGame (env : Env) (fs : FS) (game : Game) :
    String × GameRecord × FS × List Event :=
  let away_team_obj := game.awayTeam
  let home_team_obj := game.homeTeam
  let away_team := away_team_obj.abbrev_
  let home_team := home_team_obj.abbrev_
  let away_score := away_team_obj.score
  let home_score := home_team_obj.score
  let start_time_utc := game.startTimeUTC
  let ra := ensure_logo_cached env fs away_team_obj
  let away_logo := ra.1
  let rh := ensure_logo_cached env ra.2.1 home_team_obj
  let home_logo := rh.1
  let fs2 := rh.2.1
  let ev := ra.2.2 ++ rh.2.2
  if away_score.isSome && home_score.isSome then
    (pyStr away_team ++ " vs " ++ pyStr home_team ++ " - " ++
       pyScore away_score ++ ":" ++ pyScore home_score,
     { away_abbrev := away_team, home_abbrev := home_team,
       away_score := away_score, home_score := home_score,
       away_logo := away_logo, home_logo := home_logo,
       is_scheduled := false, start_time := none }, fs2, ev)
  else
    let time_display :=
      if truthyOpt start_time_utc then
        match env.formatLocalTime (start_time_utc.getD "") with
        | some s => s
        | none => "TBD"
      else "TBD"
    (pyStr away_team ++ " vs " ++ pyStr home_team ++ " - " ++ time_display,
     { away_abbrev := away_team, home_abbrev := home_team,
       away_score := none, home_score := none,
       away_logo := away_logo, home_logo := home_logo,
       is_scheduled := true, start_time := some time_display }, fs2, ev)

/-- The inner loop of `fetch_games` over one day's games, threading the
cache directory through the per-game logo resolutions. -/
def processGames (env : Env) (fs : FS) : List Game →
    List String × List GameRecord × FS × List Event
  | [] => ([], [], fs, [])
  | g :: rest =>
    let r := processGame env fs g
    let r2 := processGames env r.2.2.1 rest
    (r.1 :: r2.1, r.2.1 :: r2.2.1, r2.2.2.1, r.2.2.2 ++ r2.2.2.2)

/-- The outer loop of `fetch_games` over the days of the week: days whose
`date` differs from the requested date, and days with no `games` key, are
skipped. -/
def processDays (env : Env) (date_str : String) (fs : FS) : List Day →
    List String × List GameRecord × FS × List Event
  | [] => ([], [], fs, [])
  | d :: rest =>
    if d.date = some date_str then
      match d.games with
      | some gs =>
        let r := processGames env fs gs
        let r2 := processDays env date_str r.2.2.1 rest
        (r.1 ++ r2.1, r.2.1 ++ r2.2.1, r2.2.2.1, r.2.2.2 ++ r2.2.2.2)
      | none => processDays env date_str fs rest
    else processDays env date_str fs rest

/-- `fetch_games(date_str)` from src/NHLscores.py (lines 144-216), with the
HTTP response passed explicitly: returns the summary lines, the structured
records, the updated cache directory and the event trace.  The day loop
runs only when the `gameWeek` key is present and its list truthy
(non-empty). -/
def fetch_games (env : Env) (fs : FS) (date_str : String)
    (data : ScheduleResponse) :
    List String × List GameRecord × FS × List Event :=
  match data.gameWeek with
  | some days => if days.isEmpty then ([], [], fs, []) else processDays env date_str fs days
  | none => ([], [], fs, [])

/-- The three optional SVG converters probed by src/convert_logos.py, in
priority order. -/
inductive SvgConverter where
  | cairosvg
  | svglib
  | selenium
deriving DecidableEq, Repr

/-- The conversion loop of src/convert_logos.py (lines 74-113): for each
listed SVG file, skip it when its PNG counterpart exists, otherwise attempt
a conversion (`convertOk` says whether the chosen converter succeeds on the
file), counting (converted, skipped, failed) and threading the directory
contents. -/
def convertLoop (convertOk : String → Bool) (fs : FS) :
    List String → Nat × Nat × Nat × FS
  | [] => (0, 0, 0, fs)
  | f :: rest =>
    let svg_path := LOGO_DIR ++ "/" ++ f
    let png_file := f.replace ".svg" ".png"
    let png_path := LOGO_DIR ++ "/" ++ png_file
    if png_path ∈ fs then
      let r := convertLoop convertOk fs rest
      (r.1, r.2.1 + 1, r.2.2.1, r.2.2.2)
    else if convertOk svg_path then
      let r := convertLoop convertOk (png_path :: fs) rest
      (r.1 + 1, r.2.1, r.2.2.1, r.2.2.2)
    else
      let r := convertLoop convertOk fs rest
      (r.1, r.2.1, r.2.2.1 + 1, r.2.2.2)

/-- The exit code of src/convert_logos.py: `1` when Pillow fails to import
(line 15) or no converter library is available (line 58); `0` when no SVG
files are listed (line 66); `0` on normal termination after the conversion
loop.  `dirFiles` are the names listed in the cache directory. -/
def convert_logos_exitCode (pillowAvailable : Bool)
    (converter_available : Option SvgConverter) (convertOk : String → Bool)
    (dirFiles : List String) (fs : FS) : Nat :=
  if !pillowAvailable then 1
  else if converter_available.isNone then 1
  else
    let svg_files := dirFiles.filter (fun f => strEndsWith f ".svg")
    if svg_files.isEmpty then 0
    else
      let _counts := convertLoop convertOk fs svg_files
      0

/-- An environment with no converter libraries, failing downloads and
failing writes. -/
def envBare : Env :=
  { cairosvgAvailable := false, svglibAvailable := false,
    cairoFileOk := fun _ => false, svglibFileOk := fun _ => false,
    cairoBytesOk := fun _ => false, download := fun _ => none,
    writeOk := fun _ => false, formatLocalTime := fun _ => none }

/-- An environment whose local-time formatter always succeeds with a fixed
12-hour clock string. -/
def envFmt : Env :=
  { envBare with formatLocalTime := fun _ => some "07:00 PM" }

/-- A team object whose logo URL points at an SVG asset. -/
def teamTOR : GameTeam := ⟨some "TOR", none, some "https://x/TOR.svg", none⟩

/-- A finished game: both scores present. -/
def gameScored : Game :=
  ⟨⟨some "AAA", some 3, none, none⟩, ⟨some "BBB", some 2, none, none⟩,
   some "2024-03-09T00:00:00Z", some "OFF"⟩

/-- An upcoming game: both scores absent, with a start timestamp. -/
def gameUpcoming : Game :=
  ⟨⟨some "AAA", none, none, none⟩, ⟨some "BBB", none, none, none⟩,
   some "2024-03-09T00:00:00Z", some "FUT"⟩

/-- Claim C7: for a requested date whose response contains one finished game
between AAA and BBB with scores 3 and 2, `fetch_games` produces exactly the
summary line "AAA vs BBB - 3:2" and a structured record with
`is_scheduled = false`. -/
theorem C7_finished_game_scenario :
    fetch_games envBare [] "2024-03-09"
      ⟨some [⟨some "2024-03-09", some [gameScored]⟩]⟩
      = (["AAA vs BBB - 3:2"],
         [{ away_abbrev := some "AAA", home_abbrev := some "BBB",
            away_score := some 3, home_score := some 2,
            away_logo := none, home_logo := none,
            is_scheduled := false, start_time := none }], [], []) := by
  decide

/-- Claim C1: when the raster (PNG) file for the team's abbreviation already
exists in the cache, `ensure_logo_cached` returns the cached path, leaves
the cache unchanged, and performs no download, conversion or write (empty
event trace): the cache is write-once. -/
theorem C1_write_once_cache (env : Env) (fs : FS) (team : GameTeam) (a : String)
    (ha : team.abbrev_ = some a) (ha2 : a.isEmpty = false)
    (hurl : truthyOpt (pyOr team.darkLogo team.logo) = true)
    (hp : (LOGO_DIR ++ "/" ++ a ++ ".png") ∈ fs) :
    ensure_logo_cached env fs team
      = (some (LOGO_DIR ++ "/" ++ a ++ ".png"), fs, []) := by
  have h1 : truthyOpt (some a) = true := by simp [truthyOpt, ha2]
  simp [ensure_logo_cached, ha, h1, hurl, hp]

/-- Witness for C1 at a concrete cached team. -/
theorem C1_write_once_cache_witness :
    ensure_logo_cached envBare ["logos/TOR.png"] teamTOR
      = (some ("logos" ++ "/" ++ "TOR" ++ ".png"), ["logos/TOR.png"], []) :=
  C1_write_once_cache envBare ["logos/TOR.png"] teamTOR "TOR" rfl rfl
    (by decide) (by decide)

/-- Claim C2: a game with both scores present is classified with
`is_scheduled = false`; a game with both scores absent is classified with
`is_scheduled = true` and a non-null `start_time` display string. -/
theorem C2_score_presence_classification (env : Env) (fs : FS) (game : Game) :
    (game.awayTeam.score.isSome = true → game.homeTeam.score.isSome = true →
       (processGame env fs game).2.1.is_scheduled = false)
    ∧ (game.awayTeam.score = none → game.homeTeam.score = none →
       (processGame env fs game).2.1.is_scheduled = true
       ∧ (processGame env fs game).2.1.start_time ≠ none) := by
  constructor
  · intro h1 h2
    simp [processGame, h1, h2]
  · intro h1 h2
    simp [processGame, h1, h2]

/-- Witness for C2 at a finished and an upcoming game. -/
theorem C2_score_presence_classification_witness :
    (processGame envBare [] gameScored).2.1.is_scheduled = false
    ∧ ((processGame envBare [] gameUpcoming).2.1.is_scheduled = true
       ∧ (processGame envBare [] gameUpcoming).2.1.start_time ≠ none) :=
  ⟨(C2_score_presence_classification envBare [] gameScored).1 (by decide) (by decide),
   (C2_score_presence_classification envBare [] gameUpcoming).2 rfl rfl⟩

/-- Claim C10 (implicit): when exactly one of the two scores is present, the
game is classified as scheduled and both scores are recorded as `None`,
discarding the present one. -/
theorem C10_single_score_discarded (env : Env) (fs : FS) (game : Game)
    (h : (game.awayTeam.score = none ∧ game.homeTeam.score.isSome = true)
       ∨ (game.awayTeam.score.isSome = true ∧ game.homeTeam.score = none)) :
    (processGame env fs game).2.1.is_scheduled = true
    ∧ (processGame env fs game).2.1.away_score = none
    ∧ (processGame env fs game).2.1.home_score = none := by
  rcases h with ⟨h1, h2⟩ | ⟨h1, h2⟩ <;> simp [processGame, h1, h2]

/-- A game where only the home score is present. -/
def gameHalfScored : Game :=
  ⟨⟨some "AAA", none, none, none⟩, ⟨some "BBB", some 2, none, none⟩,
   some "2024-03-09T00:00:00Z", some "LIVE"⟩

/-- Witness for C10 at a game with only the home score present. -/
theorem C10_single_score_discarded_witness :
    (processGame envBare [] gameHalfScored).2.1.is_scheduled = true
    ∧ (processGame envBare [] gameHalfScored).2.1.away_score = none
    ∧ (processGame envBare [] gameHalfScored).2.1.home_score = none :=
  C10_single_score_discarded envBare [] gameHalfScored (Or.inl ⟨rfl, rfl⟩)

/-- Claim C6: for a game without both scores, a missing/empty or unparsable
UTC timestamp degrades the display time to "TBD" in both the line and the
record; a parsable timestamp makes the line end in the locally formatted
clock string produced by the `datetime` pipeline. -/
theorem C6_time_display (env : Env) (fs : FS) (game : Game)
    (h : game.awayTeam.score = none ∨ game.homeTeam.score = none) :
    ((truthyOpt game.startTimeUTC = false
        ∨ env.formatLocalTime (game.startTimeUTC.getD "") = none) →
       (processGame env fs game).1
         = pyStr game.awayTeam.abbrev_ ++ " vs " ++ pyStr game.homeTeam.abbrev_
             ++ " - " ++ "TBD"
       ∧ (processGame env fs game).2.1.start_time = some "TBD")
    ∧ (∀ s, truthyOpt game.startTimeUTC = true →
        env.formatLocalTime (game.startTimeUTC.getD "") = some s →
       (processGame env fs game).1
         = pyStr game.awayTeam.abbrev_ ++ " vs " ++ pyStr game.homeTeam.abbrev_
             ++ " - " ++ s
       ∧ (processGame env fs game).2.1.start_time = some s) := by
  have hcond : (game.awayTeam.score.isSome && game.homeTeam.score.isSome) = false := by
    rcases h with h | h <;> simp [h]
  constructor
  · intro htbd
    rcases htbd with h2 | h2 <;> simp [processGame, hcond, h2]
  · intro s h1 h2
    simp [processGame, hcond, h1, h2]

/-- Witness for C6: the same upcoming game under a failing and a succeeding
time formatter. -/
theorem C6_time_display_witness :
    ((processGame envBare [] gameUpcoming).1 = "AAA" ++ " vs " ++ "BBB" ++ " - TBD"
     ∧ (processGame envBare [] gameUpcoming).2.1.start_time = some "TBD")
    ∧ ((processGame envFmt [] gameUpcoming).1
         = "AAA" ++ " vs " ++ "BBB" ++ " - " ++ "07:00 PM"
       ∧ (processGame envFmt [] gameUpcoming).2.1.start_time = some "07:00 PM") :=
  ⟨(C6_time_display envBare [] gameUpcoming (Or.inl rfl)).1 (Or.inr rfl),
   (C6_time_display envFmt [] gameUpcoming (Or.inl rfl)).2 "07:00 PM" rfl rfl⟩

/-- Days whose date does not match the requested date contribute nothing:
`processDays` is unchanged by filtering them away. -/
theorem processDays_filter_eq (env : Env) (date_str : String) :
    ∀ (days : List Day) (fs : FS),
      processDays env date_str fs days
        = processDays env date_str fs
            (days.filter (fun d => d.date == some date_str)) := by
  intro days
  induction days with
  | nil => intro fs; rfl
  | cons d rest ih =>
    intro fs
    by_cases hd : d.date = some date_str
    · cases hg : d.games with
      | some gs =>
        simp only [List.filter_cons, hd, beq_self_eq_true, if_pos]
        simp only [processDays, hd, hg, if_pos, ih]
      | none =>
        simp only [List.filter_cons, hd, beq_self_eq_true, if_pos]
        simp only [processDays, hd, hg, if_pos, ih]
    · have hb : (d.date == some date_str) = false := by
        simp [hd]
      simp only [List.filter_cons, hb, Bool.false_eq_true, if_neg, if_false]
      simp only [processDays, hd, if_neg, ih]
      simp [hd]

/-- Claim C3: `fetch_games` excludes every day entry whose date differs from
the requested date: removing all non-matching days from the response changes
neither the summary lines, the records, the cache, nor the trace. -/
theorem C3_exact_date_filter (env : Env) (fs : FS) (date_str : String)
    (days : List Day) :
    fetch_games env fs date_str ⟨some days⟩
      = fetch_games env fs date_str
          ⟨some (days.filter (fun d => d.date == some date_str))⟩ := by
  by_cases h0 : days.isEmpty
  · have : days = [] := by simpa [List.isEmpty_iff] using h0
    subst this
    rfl
  · by_cases h1 : (days.filter (fun d => d.date == some date_str)).isEmpty
    · have hnil : days.filter (fun d => d.date == some date_str) = [] := by
        simpa [List.isEmpty_iff] using h1
      have hL : fetch_games env fs date_str ⟨some days⟩
          = processDays env date_str fs days := by
        simp [fetch_games, h0]
      rw [hL, processDays_filter_eq env date_str days fs, hnil]
      simp [fetch_games, processDays, hnil]
    · simp only [fetch_games]
      rw [if_neg (by simp [h0]), if_neg (by simp [h1])]
      exact processDays_filter_eq env date_str days fs

/-- The summary line of one game does not depend on the cache state. -/
theorem processGame_fst (env : Env) (fs1 fs2 : FS) (g : Game) :
    (processGame env fs1 g).1 = (processGame env fs2 g).1 := by
  by_cases h : (g.awayTeam.score.isSome && g.homeTeam.score.isSome) = true <;>
    simp [processGame, h]

/-- The summary lines of one day's games do not depend on the cache state. -/
theorem processGames_fst (env : Env) (gs : List Game) :
    ∀ fs1 fs2, (processGames env fs1 gs).1 = (processGames env fs2 gs).1 := by
  induction gs with
  | nil => intro _ _; rfl
  | cons g rest ih =>
    intro fs1 fs2
    simp only [processGames]
    exact congrArg₂ List.cons (processGame_fst env fs1 fs2 g) (ih _ _)

/-- The summary lines of the day loop do not depend on the cache state. -/
theorem processDays_fst (env : Env) (date_str : String) (days : List Day) :
    ∀ fs1 fs2,
      (processDays env date_str fs1 days).1 = (processDays env date_str fs2 days).1 := by
  induction days with
  | nil => intro _ _; rfl
  | cons d rest ih =>
    intro fs1 fs2
    by_cases hd : d.date = some date_str
    · cases hg : d.games with
      | some gs =>
        simp only [processDays, hd, hg, if_pos]
        exact congrArg₂ (· ++ ·) (processGames_fst env gs fs1 fs2) (ih _ _)
      | none => simp only [processDays, hd, hg, if_pos]; exact ih _ _
    · simp only [processDays, hd, if_neg]
      exact ih _ _

/-- Claim C9: the summary lines produced by `fetch_games` depend only on the
response and date, not on the cache state; in particular two invocations
against the same response with unchanged cache produce identical summary
lines. -/
theorem C9_lines_deterministic (env : Env) (date_str : String)
    (data : ScheduleResponse) (fs1 fs2 : FS) :
    (fetch_games env fs1 date_str data).1 = (fetch_games env fs2 date_str data).1 := by
  cases data with
  | mk gw =>
    cases gw with
    | none => rfl
    | some days =>
      by_cases h : days.isEmpty
      · simp [fetch_games, h]
      · simp only [fetch_games, h, Bool.false_eq_true, if_neg]
        exact processDays_fst env date_str days fs1 fs2

/-- An environment where both converter libraries are importable but every
conversion attempt fails, downloads succeed, and writes succeed. -/
def envConvFail : Env :=
  { cairosvgAvailable := true, svglibAvailable := true,
    cairoFileOk := fun _ => false, svglibFileOk := fun _ => false,
    cairoBytesOk := fun _ => false, download := fun _ => some "svg-bytes",
    writeOk := fun _ => true, formatLocalTime := fun _ => none }

/-- Counterexample to claim C4: with a cached `TOR.svg`, both converters
available but failing, and a download that would succeed, resolution returns
`none` after the two failed conversion attempts and performs no download at
all — it does not fall through to the download step. -/
theorem C4_counterexample :
    ensure_logo_cached envConvFail ["logos/TOR.svg"] teamTOR
      = (none, ["logos/TOR.svg"],
         [Event.convert "cairosvg" "logos/TOR.svg",
          Event.convert "svglib" "logos/TOR.svg"])
    ∧ ((ensure_logo_cached envConvFail ["logos/TOR.svg"] teamTOR).2.2.all
        (fun e => !isDownloadEvent e)) = true := by
  constructor <;> decide

/-- Claim C4 as amended: when a cached vector file exists and every
converter attempt fails (each converter is unavailable or fails), resolution
stops: `ensure_logo_cached` returns `none`, leaves the cache unchanged, and
never reaches the download step. -/
theorem C4_amended_svg_conversion_stops (env : Env) (fs : FS)
    (team : GameTeam) (a : String)
    (ha : team.abbrev_ = some a) (ha2 : a.isEmpty = false)
    (hurl : truthyOpt (pyOr team.darkLogo team.logo) = true)
    (hpng : (LOGO_DIR ++ "/" ++ a ++ ".png") ∉ fs)
    (hsvg : (LOGO_DIR ++ "/" ++ a ++ ".svg") ∈ fs)
    (hc : env.cairosvgAvailable = false
        ∨ env.cairoFileOk (LOGO_DIR ++ "/" ++ a ++ ".svg") = false)
    (hs : env.svglibAvailable = false
        ∨ env.svglibFileOk (LOGO_DIR ++ "/" ++ a ++ ".svg") = false) :
    (ensure_logo_cached env fs team).1 = none
    ∧ (ensure_logo_cached env fs team).2.1 = fs
    ∧ ((ensure_logo_cached env fs team).2.2.all
        (fun e => !isDownloadEvent e)) = true := by
  have h1 : truthyOpt (some a) = true := by simp [truthyOpt, ha2]
  by_cases hca : env.cairosvgAvailable <;> by_cases hsa : env.svglibAvailable <;>
    rcases hc with hc | hc <;> rcases hs with hs | hs <;>
      simp_all [ensure_logo_cached, ha, h1, hurl, hpng, hsvg, isDownloadEvent]

/-- Witness for the amended C4 at a concrete cached SVG with failing
converters. -/
theorem C4_amended_witness :
    (ensure_logo_cached envConvFail ["logos/TOR.svg"] teamTOR).1 = none
    ∧ (ensure_logo_cached envConvFail ["logos/TOR.svg"] teamTOR).2.1
        = ["logos/TOR.svg"]
    ∧ ((ensure_logo_cached envConvFail ["logos/TOR.svg"] teamTOR).2.2.all
        (fun e => !isDownloadEvent e)) = true :=
  C4_amended_svg_conversion_stops envConvFail ["logos/TOR.svg"] teamTOR "TOR"
    rfl rfl (by decide) (by decide) (by decide) (Or.inr rfl) (Or.inr rfl)

/-- An environment whose downloads succeed with raster content but whose
file writes all fail. -/
def envWriteFail : Env :=
  { cairosvgAvailable := false, svglibAvailable := false,
    cairoFileOk := fun _ => false, svglibFileOk := fun _ => false,
    cairoBytesOk := fun _ => false, download := fun _ => some "png-bytes",
    writeOk := fun _ => false, formatLocalTime := fun _ => none }

/-- A team object whose logo URL points at a PNG asset. -/
def teamPng : GameTeam := ⟨some "TOR", none, some "https://x/TOR.png", none⟩

/-- Claim C5: failures inside `ensure_logo_cached` are caught and yield
`none` (the embedding is a total function, so no exception can escape): a
failing download returns `none` with the cache unchanged, and a failing
write of the downloaded asset returns `none`. -/
theorem C5_failures_yield_none (env : Env) (fs : FS) (team : GameTeam)
    (a url : String)
    (ha : team.abbrev_ = some a) (ha2 : a.isEmpty = false)
    (hurl : pyOr team.darkLogo team.logo = some url) (hu : url.isEmpty = false)
    (hpng : (LOGO_DIR ++ "/" ++ a ++ ".png") ∉ fs)
    (hsvg : (LOGO_DIR ++ "/" ++ a ++ ".svg") ∉ fs) :
    (env.download url = none →
       ensure_logo_cached env fs team = (none, fs, [Event.download url]))
    ∧ (∀ c, env.download url = some c →
        strToLower (if (path_ext (urlparse_path url)).isEmpty then ".svg"
          else path_ext (urlparse_path url)) ≠ ".svg" →
        env.writeOk (LOGO_DIR ++ "/" ++ a
          ++ (if (path_ext (urlparse_path url)).isEmpty then ".svg"
              else path_ext (urlparse_path url))) = false →
        (ensure_logo_cached env fs team).1 = none) := by
  have h1 : truthyOpt (some a) = true := by simp [truthyOpt, ha2]
  have h3 : truthyOpt (some url) = true := by simp [truthyOpt, hu]
  constructor
  · intro hdl
    simp [ensure_logo_cached, ha, h1, hurl, h3, hpng, hsvg, hdl]
  · intro c hdl hext hw
    simp [ensure_logo_cached, saveOriginal, ha, h1, hurl, h3, hpng, hsvg,
      hdl, hext, hw]

/-- Witness for C5: an unreachable SVG URL, and a reachable PNG URL whose
local write fails. -/
theorem C5_failures_yield_none_witness :
    ensure_logo_cached envBare [] teamTOR
      = (none, [], [Event.download "https://x/TOR.svg"])
    ∧ (ensure_logo_cached envWriteFail [] teamPng).1 = none :=
  ⟨(C5_failures_yield_none envBare [] teamTOR "TOR" "https://x/TOR.svg"
      rfl rfl rfl rfl (by decide) (by decide)).1 rfl,
   (C5_failures_yield_none envWriteFail [] teamPng "TOR" "https://x/TOR.png"
      rfl rfl rfl rfl (by decide) (by decide)).2 "png-bytes" rfl (by decide) rfl⟩

/-- Counterexample to claim C8: with Pillow importable but no converter
library available and an empty cache directory (no SVG files at all), the
batch converter exits with status 1, not 0 — the converter-availability
check runs before the SVG listing. -/
theorem C8_counterexample :
    convert_logos_exitCode true none (fun _ => true) [] [] = 1
    ∧ convert_logos_exitCode true none (fun _ => true) [] [] ≠ 0 := by
  constructor
  · rfl
  · decide

/-- Claim C8 as amended: the batch converter exits 1 whenever no converter
library is available (this check precedes the file listing); when Pillow and
a converter are available it exits 0, in particular when the directory
lists no SVG files. -/
theorem C8_amended_exit_codes (pillow : Bool) (conv : Option SvgConverter)
    (convertOk : String → Bool) (dirFiles : List String) (fs : FS) :
    (conv = none → convert_logos_exitCode pillow conv convertOk dirFiles fs = 1)
    ∧ (pillow = true → conv.isSome = true →
        (dirFiles.filter (fun f => strEndsWith f ".svg")).isEmpty = true →
        convert_logos_exitCode pillow conv convertOk dirFiles fs = 0) := by
  constructor
  · intro h
    cases pillow <;> simp [convert_logos_exitCode, h]
  · intro h1 h2 h3
    cases conv with
    | none => simp at h2
    | some c => simp [convert_logos_exitCode, h1, h3]

/-- Witness for the amended C8: a missing converter exits 1; an available
converter with no SVG files exits 0. -/
theorem C8_amended_exit_codes_witness :
    convert_logos_exitCode false none (fun _ => true) [] [] = 1
    ∧ convert_logos_exitCode true (some SvgConverter.cairosvg) (fun _ => true)
        ["a.png"] [] = 0 :=
  ⟨(C8_amended_exit_codes false none (fun _ => true) [] []).1 rfl,
   (C8_amended_exit_codes true (some SvgConverter.cairosvg) (fun _ => true)
      ["a.png"] []).2 rfl rfl (by decide)⟩
